import Mathlib

/-!
ddnet7: packet framing constants, sequence arithmetic and the tele-gun projectile branch.

A shallow embedding of `src/engine/shared/network.h` (protocol constants, documented
header layouts) and of `CProjectile::Tick` from `src/game/server/entities/projectile.cpp`.
Function bodies that live in translation units other than these two files are modelled
from the specification and the layout comment of `network.h`; each such definition says so.
-/

namespace Ddnet7

/-! ## Constants of `network.h` (second anonymous enum) -/

def NET_MAX_PACKETSIZE : Nat := 1400
def NET_MAX_PAYLOAD : Nat := NET_MAX_PACKETSIZE - 6
def NET_MAX_CHUNKHEADERSIZE : Nat := 3
def NET_PACKETHEADERSIZE : Nat := 11
def NET_PACKETHEADERSIZE_LEGACY : Nat := 3
def NET_MAX_SEQUENCE : Nat := 1 <<< 10
def NET_TOKEN_NONE : Nat := 0xffffffff
def NET_SEQUENCE_MASK : Nat := NET_MAX_SEQUENCE - 1

def NET_PACKETVERSION_LEGACY : Nat := 0
def NET_PACKETVERSION : Nat := 1

def NET_PACKETFLAG_CONTROL : Nat := 1
def NET_PACKETFLAG_CONNLESS : Nat := 2
def NET_PACKETFLAG_RESEND : Nat := 4
def NET_PACKETFLAG_COMPRESSION : Nat := 8

def NET_CHUNKFLAG_VITAL : Nat := 1
def NET_CHUNKFLAG_RESEND : Nat := 2

def NET_CTRLMSG_KEEPALIVE : Nat := 0
def NET_CTRLMSG_CONNECT : Nat := 1
def NET_CTRLMSG_CONNECTACCEPT : Nat := 2
def NET_CTRLMSG_ACCEPT : Nat := 3
def NET_CTRLMSG_CLOSE : Nat := 4
def NET_CTRLMSG_TOKEN : Nat := 5

/-- The six control message identifiers in declaration order. -/
def ctrlMsgIds : List Nat :=
  [NET_CTRLMSG_KEEPALIVE, NET_CTRLMSG_CONNECT, NET_CTRLMSG_CONNECTACCEPT,
   NET_CTRLMSG_ACCEPT, NET_CTRLMSG_CLOSE, NET_CTRLMSG_TOKEN]

/-! ## Documented header layouts (comment block at the top of `network.h`) -/

/-- One header field of the layout comment: its name and its width in bytes. -/
structure HeaderField where
  name : String
  width : Nat
  deriving DecidableEq, Repr

/-- Layout comment, `CURRENT: packet header: 11 bytes`. -/
def currentHeaderLayout : List HeaderField :=
  [⟨"padding", 3⟩, ⟨"version", 1⟩, ⟨"token", 4⟩,
   ⟨"flags_ack", 1⟩, ⟨"ack", 1⟩, ⟨"num_chunks", 1⟩]

/-- Layout comment, the bracketed trailer of a current connless packet. -/
def currentConnlessExtra : List HeaderField := [⟨"response_token", 4⟩]

/-- Layout comment, `legacy packet header: 3 bytes`. -/
def legacyHeaderLayout : List HeaderField :=
  [⟨"flags_ack", 1⟩, ⟨"ack", 1⟩, ⟨"num_chunks", 1⟩]

/-- Layout comment, the bracketed trailer of a legacy connless packet. -/
def legacyConnlessExtra : List HeaderField := [⟨"padding", 3⟩]

/-- Total width in bytes of a list of header fields. -/
def layoutSize (l : List HeaderField) : Nat := (l.map HeaderField.width).sum

/-- Header size in bytes for a packet version and connless bit, from the constants
`NET_PACKETHEADERSIZE` / `NET_PACKETHEADERSIZE_LEGACY` and the connless trailers of the
layout comment (4 bytes response token, 3 bytes padding). -/
def packetHeaderSize (version : Int) (connless : Bool) : Nat :=
  if version = NET_PACKETVERSION_LEGACY then
    NET_PACKETHEADERSIZE_LEGACY + (if connless then layoutSize legacyConnlessExtra else 0)
  else
    NET_PACKETHEADERSIZE + (if connless then layoutSize currentConnlessExtra else 0)

/-! ## Sequence numbers -/

/-- Modelled from the spec: the successor of a connection sequence number (the increment in
`CNetConnection`, whose body is not part of `network.h`), `next(s) = (s + 1) & NET_SEQUENCE_MASK`
over the constants of `network.h`. -/
def nextSequence (s : Nat) : Nat := (s + 1) &&& NET_SEQUENCE_MASK

/-- Modelled from the spec: `CNetBase::IsSeqInBackroom` (declared in `network.h`, body absent).
The header comment reads "The backroom is ack-NET_MAX_SEQUENCE/2"; the window reaches from
that bottom up to `Ack`, and a negative bottom wraps to the top of the sequence space. -/
def IsSeqInBackroom (Seq Ack : Int) : Int :=
  let Bottom : Int := Ack - (NET_MAX_SEQUENCE : Int) / 2
  if Bottom < 0 then
    if Seq ≤ Ack then 1
    else if Seq ≥ Bottom + (NET_MAX_SEQUENCE : Int) then 1
    else 0
  else
    if Seq ≤ Ack ∧ Seq ≥ Bottom then 1
    else 0

/-! ## Chunk header codec -/

/-- The class `CNetChunkHeader` of `network.h`: three `int` fields. -/
structure CNetChunkHeader where
  m_Flags : Int
  m_Size : Int
  m_Sequence : Int
  deriving DecidableEq, Repr

/-- The test `m_Flags & NET_CHUNKFLAG_VITAL`; `NET_CHUNKFLAG_VITAL` = 1 is bit 0. -/
def CNetChunkHeader.isVital (h : CNetChunkHeader) : Bool :=
  decide (h.m_Flags % 2 = 1)

/-- Modelled from the spec: `CNetChunkHeader::Pack` (declared in `network.h`, body absent),
following the layout comment "chunk header: 2-3 bytes": `flags_size` holds 2 bit flags and
6 bit size, `size_seq` holds 6 bit size and 2 bit seq, `seq` holds 8 bit seq and is present
only if the vital flag is set. Within a byte the fields are placed in the order the comment
lists them, most significant first. The result is the list of bytes written. -/
def CNetChunkHeader.Pack (h : CNetChunkHeader) : List Nat :=
  let flags_size : Int := (h.m_Flags % 4) * 64 + (h.m_Size / 64) % 64
  if h.isVital then
    let size_seq : Int := (h.m_Size % 64) * 4 + (h.m_Sequence / 256) % 4
    [flags_size.toNat, size_seq.toNat, (h.m_Sequence % 256).toNat]
  else
    let size_seq : Int := (h.m_Size % 64) * 4
    [flags_size.toNat, size_seq.toNat]

/-- Modelled from the spec: `CNetChunkHeader::Unpack` (declared in `network.h`, body absent),
the reader of the same layout. It returns the header and the data behind it; a truncated
header is a format error (`none`). A header without the vital flag carries no sequence
number, written `-1` here. -/
def CNetChunkHeader.Unpack (pData : List Nat) : Option (CNetChunkHeader × List Nat) :=
  match pData with
  | flags_size :: size_seq :: rest =>
    let flags : Nat := flags_size / 64 % 4
    let size : Nat := (flags_size % 64) * 64 + size_seq / 4 % 64
    if flags % 2 = 1 then
      match rest with
      | seq :: rest' =>
        some (⟨flags, size, ((size_seq % 4) * 256 + seq % 256 : Nat)⟩, rest')
      | [] => none
    else
      some (⟨flags, size, -1⟩, rest)
  | _ => none

/-! ## Packet header codec -/

/-- The class `CNetPacketConstruct` of `network.h`. The array `m_aChunkData[NET_MAX_PAYLOAD]` is
represented by the list of its meaningful bytes (the first `m_DataSize` ones). -/
structure CNetPacketConstruct where
  m_Version : Int
  m_Token : Nat
  m_ResponseToken : Nat
  m_Flags : Int
  m_Ack : Int
  m_NumChunks : Int
  m_DataSize : Int
  m_aChunkData : List Nat
  deriving DecidableEq, Repr

/-- The test `m_Flags & NET_PACKETFLAG_CONNLESS`; `NET_PACKETFLAG_CONNLESS` = 2 is bit 1. -/
def CNetPacketConstruct.isConnless (p : CNetPacketConstruct) : Bool :=
  decide (p.m_Flags / 2 % 2 = 1)

/-- The four bytes of a 32-bit token, most significant first. -/
def tokenBytes (t : Nat) : List Nat :=
  [t / 16777216 % 256, t / 65536 % 256, t / 256 % 256, t % 256]

/-- Layout comment: the bytes `flags_ack` (4 bit flags, 4 bit ack), `ack` (8 bit ack) and
`num_chunks` (8 bit chunks). -/
def flagsAckChunksBytes (p : CNetPacketConstruct) : List Nat :=
  [((p.m_Flags % 16) * 16 + (p.m_Ack / 256) % 16).toNat, (p.m_Ack % 256).toNat,
   (p.m_NumChunks % 256).toNat]

/-- Modelled from the spec: the header encoding of `CNetBase::SendPacket` (declared in
`network.h`, body absent), following the layout comment of `network.h` and section 4.1 of the
spec. The layout is selected by the version field. Current layout: three zero padding bytes,
the version byte, the token, then `flags_ack`, `ack`, `num_chunks` (all `0xff` for a connless
packet) and, for a connless packet, the response token. Legacy layout: `flags_ack`, `ack`,
`num_chunks` and, for a connless packet, three zero-filled padding bytes. The payload
(the first `m_DataSize` bytes of `m_aChunkData`) follows the header unchanged; compression is
a separate step and not part of the framing. -/
def PackPacket (p : CNetPacketConstruct) : List Nat :=
  let data := p.m_aChunkData.take p.m_DataSize.toNat
  if p.m_Version = NET_PACKETVERSION_LEGACY then
    flagsAckChunksBytes p ++ (if p.isConnless then [0, 0, 0] else []) ++ data
  else
    [0, 0, 0, (p.m_Version % 256).toNat] ++ tokenBytes p.m_Token
      ++ (if p.isConnless then [0xff, 0xff, 0xff] else flagsAckChunksBytes p)
      ++ (if p.isConnless then tokenBytes p.m_ResponseToken else [])
      ++ data

/-- Validity of a packet as the round-trip property lists it: version 0 or 1, 32-bit token,
32-bit response token when connless, flags a combination of the four packet flags, ack below
`NET_MAX_SEQUENCE`, chunk count in one byte, payload of at most `NET_MAX_PAYLOAD` bytes.
`m_DataSize` is the number of payload bytes and every payload entry is a byte. -/
def ValidPacket (p : CNetPacketConstruct) : Prop :=
  (p.m_Version = NET_PACKETVERSION_LEGACY ∨ p.m_Version = NET_PACKETVERSION) ∧
  p.m_Token < 2 ^ 32 ∧
  (p.isConnless = true → p.m_ResponseToken < 2 ^ 32) ∧
  (0 ≤ p.m_Flags ∧ p.m_Flags ≤ (NET_PACKETFLAG_CONTROL + NET_PACKETFLAG_CONNLESS
      + NET_PACKETFLAG_RESEND + NET_PACKETFLAG_COMPRESSION : Nat)) ∧
  (0 ≤ p.m_Ack ∧ p.m_Ack < NET_MAX_SEQUENCE) ∧
  (0 ≤ p.m_NumChunks ∧ p.m_NumChunks ≤ 255) ∧
  p.m_DataSize = p.m_aChunkData.length ∧
  p.m_aChunkData.length ≤ NET_MAX_PAYLOAD ∧
  ∀ b ∈ p.m_aChunkData, b < 256

instance (p : CNetPacketConstruct) : Decidable (ValidPacket p) := by
  unfold ValidPacket
  infer_instance

/-- A current-version packet with a full payload of `NET_MAX_PAYLOAD` zero bytes. -/
def fullPayloadPacket : CNetPacketConstruct :=
  ⟨1, 0, NET_TOKEN_NONE, 0, 0, 0, NET_MAX_PAYLOAD, List.replicate NET_MAX_PAYLOAD 0⟩

/-- Constants used by `CProjectile::Tick` whose declarations are outside the two source files
(`generated/protocol.h`, `game/mapitems.h`, `character.h`); they are parameters of the model. -/
structure GameConsts where
  WEAPON_GUN : Int
  WEAPON_SHOTGUN : Int
  WEAPON_GRENADE : Int
  WEAPON_LASER : Int
  TILE_ALLOW_TELE_GUN : Int
  TILE_ALLOW_BLUE_TELE_GUN : Int
  DISABLE_HIT_GRENADE : Nat
  deriving DecidableEq, Repr

/-- Lines 176-190 of `projectile.cpp`: the two switch flags of the tile under the impact and
their filtering by the switch delay. `sw` is `IsSwitch(MapIndex)`, `delay` is
`GetSwitchDelay(MapIndex)`; the result is `(IsSwitchTeleGun, IsBlueSwitchTeleGun)`. -/
def teleGunSwitchFlags (K : GameConsts) (sw delay m_Type : Int) : Bool × Bool :=
  let IsSwitchTeleGun : Bool := sw == K.TILE_ALLOW_TELE_GUN
  let IsBlueSwitchTeleGun : Bool := sw == K.TILE_ALLOW_BLUE_TELE_GUN
  if IsSwitchTeleGun || IsBlueSwitchTeleGun then
    let s1 : Bool × Bool :=
      if delay == 1 && m_Type != K.WEAPON_GUN then (false, false)
      else (IsSwitchTeleGun, IsBlueSwitchTeleGun)
    let s2 : Bool × Bool :=
      if delay == 2 && m_Type != K.WEAPON_GRENADE then (false, false) else s1
    let s3 : Bool × Bool :=
      if delay == 3 && m_Type != K.WEAPON_LASER then (false, false) else s2
    s3
  else (IsSwitchTeleGun, IsBlueSwitchTeleGun)

/-- The part of a `CCharacter` that `CProjectile::Tick` reads. `addr` stands for the object
identity used by pointer comparison; `CanCollide` is the result of `CanCollide(m_Owner)`. -/
structure CCharacter (Pos : Type) where
  addr : Nat
  m_Hit : Nat
  IsAlive : Bool
  CanCollide : Bool
  m_HasTeleGrenade : Bool
  m_HasTeleGun : Bool
  GetPos : Pos

/-- Everything `CProjectile::Tick` reads before the tele-gun branch: the projectile members and
the results of the calls into the game server, the collision layer and the world. -/
structure TickInput (Pos : Type) where
  m_Type : Int
  m_Owner : Int
  m_Freeze : Bool
  m_Explosive : Bool
  /-- Value of `GetPos(Pt)`. -/
  PrevPos : Pos
  /-- Value of `GetPos(Ct)`. -/
  CurPos : Pos
  /-- Return value of `IntersectLine(PrevPos, CurPos, &ColPos, &NewPos)`. -/
  Collide : Int
  /-- Value written to `ColPos` by `IntersectLine`. -/
  LineColPos : Pos
  /-- Value written to `NewPos` by `IntersectLine`. -/
  NewPos : Pos
  /-- Result of `GetPlayerChar(m_Owner)`. -/
  PlayerChar : Option (CCharacter Pos)
  SvHit : Int
  SvDestroyBulletsOnDeath : Int
  /-- Result of `IntersectCharacter(PrevPos, ColPos, ..., ColPos, pOwnerChar, m_Owner)`: the
  returned pointer and the value of `ColPos` after the call. -/
  IntersectCharacter : Option (CCharacter Pos) × Pos
  GameLayerClipped : Pos → Bool
  /-- A `vec2` used as a condition (`ColPos &&`). -/
  PosIsSet : Pos → Bool
  GetPureMapIndex : Pos → Int
  GetFTileIndex : Int → Int
  IsSwitch : Int → Int
  GetSwitchDelay : Int → Int

/-- What the tele-gun branch of `CProjectile::Tick` does with the target. -/
inductive TeleGunCall (Pos : Type) where
  /-- The projectile was destroyed at line 149 before the hit test. -/
  | destroyed
  /-- The call site of lines 201-204 is not reached. -/
  | notReached
  /-- Line 202: `GetNearestAirPosPlayer(pTargetChr->GetPos(), ...)` with this `pTargetChr`. -/
  | nearestAirPosPlayer (pTargetChr : Option (CCharacter Pos))
  /-- Line 204: `GetNearestAirPos(NewPos, CurPos, ...)`. -/
  | nearestAirPos

variable {Pos : Type}

/-- Pointer comparison `a == b` of two character pointers. -/
def ptrEq (a b : Option (CCharacter Pos)) : Bool :=
  a.map CCharacter.addr == b.map CCharacter.addr

/-- Lines 117-120: `pOwnerChar`. -/
def TickInput.pOwnerChar (x : TickInput Pos) : Option (CCharacter Pos) :=
  if x.m_Owner ≥ 0 then x.PlayerChar else none

/-- The condition of line 124, `pOwnerChar ? !(m_Hit & DISABLE_HIT_GRENADE) : g_Config.m_SvHit`. -/
def TickInput.hitEnabled (K : GameConsts) (x : TickInput Pos) : Bool :=
  match x.pOwnerChar with
  | some o => o.m_Hit &&& K.DISABLE_HIT_GRENADE == 0
  | none => x.SvHit != 0

/-- Lines 122-125: `pTargetChr`. -/
def TickInput.pTargetChr (K : GameConsts) (x : TickInput Pos) : Option (CCharacter Pos) :=
  if x.hitEnabled K then x.IntersectCharacter.1 else none

/-- Value of `ColPos` after line 125. -/
def TickInput.ColPos (K : GameConsts) (x : TickInput Pos) : Pos :=
  if x.hitEnabled K then x.IntersectCharacter.2 else x.LineColPos

/-- Lines 131-142: `IsWeaponCollide`. -/
def TickInput.IsWeaponCollide (K : GameConsts) (x : TickInput Pos) : Bool :=
  match x.pOwnerChar, x.pTargetChr K with
  | some o, some t => o.IsAlive && t.IsAlive && !t.CanCollide
  | _, _ => false

/-- The first disjunct of the condition of line 153. -/
def TickInput.targetHit (K : GameConsts) (x : TickInput Pos) : Bool :=
  match x.pTargetChr K with
  | none => false
  | some t =>
    match x.pOwnerChar with
    | some o => o.m_Hit &&& K.DISABLE_HIT_GRENADE == 0
    | none => x.SvHit != 0 || x.m_Owner == -1 || ptrEq (some t) none

/-- Control flow of `CProjectile::Tick` from line 108 to the calls of lines 201-204. The
statements in between that only act on the world (life span, explosion, sound, freeze) do
not change `pTargetChr`, `pOwnerChar`, `Collide` or `ColPos` and are left out. -/
def CProjectile.Tick (K : GameConsts) (x : TickInput Pos) : TeleGunCall Pos :=
  let pOwnerChar := x.pOwnerChar
  let pTargetChr := x.pTargetChr K
  let ColPos := x.ColPos K
  let ownerAlive : Bool := match pOwnerChar with
    | some o => o.IsAlive
    | none => false
  if !ownerAlive && (x.m_Owner ≥ 0 && (x.m_Type != K.WEAPON_GRENADE || x.SvDestroyBulletsOnDeath != 0))
  then .destroyed
  else if (x.targetHit K || x.Collide != 0 || x.GameLayerClipped x.CurPos) && !x.IsWeaponCollide K then
    match pOwnerChar with
    | none => .notReached
    | some o =>
      if x.PosIsSet ColPos && !x.GameLayerClipped ColPos &&
          ((x.m_Type == K.WEAPON_GRENADE && o.m_HasTeleGrenade) ||
           (x.m_Type == K.WEAPON_GUN && o.m_HasTeleGun)) then
        let MapIndex := x.GetPureMapIndex (match pTargetChr with
          | some t => t.GetPos
          | none => ColPos)
        let TileFIndex := x.GetFTileIndex MapIndex
        let sw := teleGunSwitchFlags K (x.IsSwitch MapIndex) (x.GetSwitchDelay MapIndex) x.m_Type
        if TileFIndex == K.TILE_ALLOW_TELE_GUN || TileFIndex == K.TILE_ALLOW_BLUE_TELE_GUN
            || sw.1 || sw.2 || pTargetChr.isSome then
          if x.Collide == 0 then .nearestAirPosPlayer pTargetChr
          else .nearestAirPos
        else .notReached
      else .notReached
  else .notReached


/-- Sample values of the constants (those of the 0.7 protocol and the DDNet tile set). -/
def sampleConsts : GameConsts :=
  { WEAPON_GUN := 1, WEAPON_SHOTGUN := 2, WEAPON_GRENADE := 3, WEAPON_LASER := 4,
    TILE_ALLOW_TELE_GUN := 96, TILE_ALLOW_BLUE_TELE_GUN := 97, DISABLE_HIT_GRENADE := 4 }

def sampleOwner : CCharacter (Int × Int) :=
  { addr := 1, m_Hit := 0, IsAlive := true, CanCollide := true,
    m_HasTeleGrenade := false, m_HasTeleGun := true, GetPos := (0, 0) }

def sampleTarget : CCharacter (Int × Int) :=
  { addr := 2, m_Hit := 0, IsAlive := true, CanCollide := true,
    m_HasTeleGrenade := false, m_HasTeleGun := false, GetPos := (40, 8) }

/-- A gun projectile of a tele-gun owner that hits a character in free air. -/
def sampleTick : TickInput (Int × Int) :=
  { m_Type := 1, m_Owner := 0, m_Freeze := false, m_Explosive := false,
    PrevPos := (10, 8), CurPos := (50, 8), Collide := 0, LineColPos := (50, 8),
    NewPos := (50, 8), PlayerChar := some sampleOwner, SvHit := 1,
    SvDestroyBulletsOnDeath := 0, IntersectCharacter := (some sampleTarget, (40, 8)),
    GameLayerClipped := fun _ => false, PosIsSet := fun p => p.1 != 0 || p.2 != 0,
    GetPureMapIndex := fun _ => 0, GetFTileIndex := fun _ => 0, IsSwitch := fun _ => 0,
    GetSwitchDelay := fun _ => 0 }

/-- The same shot missing every character, on a map whose clipping differs between `CurPos`
and the position left in `ColPos`. -/
def sampleTickMoved : TickInput (Int × Int) :=
  { sampleTick with
    IntersectCharacter := (none, (40, 8)),
    GameLayerClipped := fun p => decide (p.1 ≥ 50),
    GetFTileIndex := fun _ => 96 }

/-! ## Theorems: constants and layouts -/

/-- C1 (evaluation at the failing input): a full payload of `NET_MAX_PAYLOAD` = 1394 bytes
behind the current 11-byte header is 1405 bytes, and 1409 bytes behind the 15-byte connless
header; both exceed `NET_MAX_PACKETSIZE` = 1400. Only the legacy header forms fit
(1397 and exactly 1400 bytes). -/
theorem current_header_full_payload_exceeds_packetsize :
    NET_MAX_PAYLOAD = 1394 ∧
    packetHeaderSize NET_PACKETVERSION false + NET_MAX_PAYLOAD = 1405 ∧
    packetHeaderSize NET_PACKETVERSION true + NET_MAX_PAYLOAD = 1409 ∧
    NET_MAX_PACKETSIZE < packetHeaderSize NET_PACKETVERSION false + NET_MAX_PAYLOAD ∧
    NET_MAX_PACKETSIZE < packetHeaderSize NET_PACKETVERSION true + NET_MAX_PAYLOAD ∧
    packetHeaderSize NET_PACKETVERSION_LEGACY false + NET_MAX_PAYLOAD = 1397 ∧
    packetHeaderSize NET_PACKETVERSION_LEGACY true + NET_MAX_PAYLOAD = NET_MAX_PACKETSIZE := by
  decide

/-- C6: the field widths of the documented current header sum to `NET_PACKETHEADERSIZE` = 11
(15 with the connless response token), those of the legacy header to
`NET_PACKETHEADERSIZE_LEGACY` = 3 (6 with the connless padding), and the legacy header is
the current header with padding, version and token removed. -/
theorem header_sizes_match_layout :
    layoutSize currentHeaderLayout = NET_PACKETHEADERSIZE ∧
    NET_PACKETHEADERSIZE = 11 ∧
    layoutSize (currentHeaderLayout ++ currentConnlessExtra) = 15 ∧
    packetHeaderSize NET_PACKETVERSION true = 15 ∧
    layoutSize legacyHeaderLayout = NET_PACKETHEADERSIZE_LEGACY ∧
    NET_PACKETHEADERSIZE_LEGACY = 3 ∧
    layoutSize (legacyHeaderLayout ++ legacyConnlessExtra) = 6 ∧
    packetHeaderSize NET_PACKETVERSION_LEGACY true = 6 ∧
    currentHeaderLayout.filter
      (fun f => !(f.name == "padding" || f.name == "version" || f.name == "token"))
      = legacyHeaderLayout := by
  decide

/-- C7: the control message identifiers are KEEPALIVE = 0, CONNECT = 1, CONNECTACCEPT = 2,
ACCEPT = 3, CLOSE = 4, TOKEN = 5; they are pairwise distinct and each is below 256. -/
theorem ctrlmsg_wire_values :
    ctrlMsgIds = [0, 1, 2, 3, 4, 5] ∧ ctrlMsgIds.Nodup ∧ ∀ m ∈ ctrlMsgIds, m < 256 := by
  decide

/-! ## Theorems: sequence numbers -/

theorem sequence_mask_eq_mod (x : Nat) : x &&& NET_SEQUENCE_MASK = x % 1024 := by
  have h : NET_SEQUENCE_MASK = 2 ^ 10 - 1 := by decide
  rw [h, Nat.and_pow_two_sub_one_eq_mod]

theorem nextSequence_eq_mod (s : Nat) : nextSequence s = (s + 1) % 1024 := by
  unfold nextSequence
  exact sequence_mask_eq_mod (s + 1)

theorem nextSequence_iterate (k s : Nat) (hs : s < 1024) :
    nextSequence^[k] s = (s + k) % 1024 := by
  induction k with
  | zero => simpa using (Nat.mod_eq_of_lt hs).symm
  | succ n ih =>
    rw [Function.iterate_succ_apply', ih, nextSequence_eq_mod]
    omega

/-- C5: with `next(s) = (s + 1) & NET_SEQUENCE_MASK`, for every `s` in [0, 1024) the successor
is again in [0, 1024) and equals `(s + 1) mod 1024`; the `k`-th successor differs from `s`
for every `0 < k < 1024`, and the 1024-th successor is `s` again. -/
theorem nextSequence_cycle (s : Nat) (hs : s < NET_MAX_SEQUENCE) :
    nextSequence s < NET_MAX_SEQUENCE ∧
    nextSequence s = (s + 1) % 1024 ∧
    (∀ k, 0 < k → k < 1024 → nextSequence^[k] s ≠ s) ∧
    nextSequence^[1024] s = s := by
  have hs' : s < 1024 := hs
  have hN : NET_MAX_SEQUENCE = 1024 := by decide
  refine ⟨?_, nextSequence_eq_mod s, ?_, ?_⟩
  · rw [nextSequence_eq_mod, hN]; omega
  · intro k hk0 hk
    rw [nextSequence_iterate k s hs']
    omega
  · rw [nextSequence_iterate 1024 s hs']
    omega

/-- C5 witness: the property at the wrap boundary, `s = 1023`. -/
theorem nextSequence_cycle_witness :
    nextSequence 1023 < NET_MAX_SEQUENCE ∧
    nextSequence 1023 = (1023 + 1) % 1024 ∧
    (∀ k, 0 < k → k < 1024 → nextSequence^[k] 1023 ≠ 1023) ∧
    nextSequence^[1024] 1023 = 1023 :=
  nextSequence_cycle 1023 (by decide)

/-- C4: for `Seq` and `Ack` in [0, NET_MAX_SEQUENCE), `IsSeqInBackroom Seq Ack` is nonzero
exactly when `(Ack - Seq) mod 1024 ≤ 512`, that is exactly when `Seq` is one of the sequence
numbers `Ack - j mod 1024` with `0 ≤ j ≤ 512` (the window that starts 512 behind `Ack` and
ends at `Ack`), also when `Ack - 512` is negative. -/
theorem IsSeqInBackroom_wrapping (Seq Ack : Int)
    (hS0 : 0 ≤ Seq) (hS : Seq < NET_MAX_SEQUENCE) (hA0 : 0 ≤ Ack) (hA : Ack < NET_MAX_SEQUENCE) :
    (IsSeqInBackroom Seq Ack ≠ 0 ↔ (Ack - Seq) % 1024 ≤ 512) ∧
    (IsSeqInBackroom Seq Ack ≠ 0 ↔ ∃ j : Int, 0 ≤ j ∧ j ≤ 512 ∧ Seq = (Ack - j) % 1024) := by
  have hN : (NET_MAX_SEQUENCE : Int) = 1024 := by decide
  rw [hN] at hS hA
  have key : IsSeqInBackroom Seq Ack ≠ 0 ↔ (Ack - Seq) % 1024 ≤ 512 := by
    unfold IsSeqInBackroom
    simp only [hN]
    split_ifs <;> simp <;> omega
  refine ⟨key, key.trans ⟨?_, ?_⟩⟩
  · intro h
    exact ⟨(Ack - Seq) % 1024, by omega, h, by omega⟩
  · rintro ⟨j, hj0, hj, hjs⟩
    omega

/-- C4 witness: across the wrap boundary, `Seq = 1000` and `Ack = 5`. -/
theorem IsSeqInBackroom_wrapping_witness :
    (IsSeqInBackroom 1000 5 ≠ 0 ↔ ((5 : Int) - 1000) % 1024 ≤ 512) ∧
    (IsSeqInBackroom 1000 5 ≠ 0 ↔ ∃ j : Int, 0 ≤ j ∧ j ≤ 512 ∧ (1000 : Int) = (5 - j) % 1024) :=
  IsSeqInBackroom_wrapping 1000 5 (by decide) (by decide) (by decide) (by decide)

/-! ## Theorems: chunk header -/

theorem CNetChunkHeader.Pack_vital (f s q : Int) (hv : f % 2 = 1) :
    CNetChunkHeader.Pack ⟨f, s, q⟩ =
      [(f % 4 * 64 + s / 64 % 64).toNat, (s % 64 * 4 + q / 256 % 4).toNat, (q % 256).toNat] := by
  simp [CNetChunkHeader.Pack, CNetChunkHeader.isVital, hv]

theorem CNetChunkHeader.Pack_plain (f s q : Int) (hv : ¬ f % 2 = 1) :
    CNetChunkHeader.Pack ⟨f, s, q⟩ = [(f % 4 * 64 + s / 64 % 64).toNat, (s % 64 * 4).toNat] := by
  simp [CNetChunkHeader.Pack, CNetChunkHeader.isVital, hv]

theorem CNetChunkHeader.Unpack_vital (b0 b1 b2 : Nat) (rest : List Nat)
    (hv : b0 / 64 % 4 % 2 = 1) :
    CNetChunkHeader.Unpack (b0 :: b1 :: b2 :: rest) =
      some (⟨(b0 / 64 % 4 : Nat), (b0 % 64 * 64 + b1 / 4 % 64 : Nat),
             (b1 % 4 * 256 + b2 % 256 : Nat)⟩, rest) := by
  simp [CNetChunkHeader.Unpack, hv]

theorem CNetChunkHeader.Unpack_plain (b0 b1 : Nat) (rest : List Nat)
    (hv : ¬ b0 / 64 % 4 % 2 = 1) :
    CNetChunkHeader.Unpack (b0 :: b1 :: rest) =
      some (⟨(b0 / 64 % 4 : Nat), (b0 % 64 * 64 + b1 / 4 % 64 : Nat), -1⟩, rest) := by
  simp [CNetChunkHeader.Unpack, hv]

/-- C3: for a chunk header with flags in [0, 3], size in [0, 1024] and, when vital, sequence
in [0, 1024), `Pack` writes exactly 3 bytes when the vital flag is set and 2 otherwise, each
below 256; `Unpack` on these bytes followed by any data `rest` returns a header with the same
flags and size (and the same sequence when vital) and leaves exactly `rest`, so it consumes
the bytes `Pack` wrote. -/
theorem chunk_header_roundtrip (h : CNetChunkHeader) (rest : List Nat)
    (hf0 : 0 ≤ h.m_Flags) (hf : h.m_Flags ≤ 3) (hs0 : 0 ≤ h.m_Size) (hs : h.m_Size ≤ 1024)
    (hq : h.isVital = true → 0 ≤ h.m_Sequence ∧ h.m_Sequence < NET_MAX_SEQUENCE) :
    (h.Pack.length = if h.isVital then 3 else 2) ∧
    (∀ b ∈ h.Pack, b < 256) ∧
    ∃ h', CNetChunkHeader.Unpack (h.Pack ++ rest) = some (h', rest) ∧
      h'.m_Flags = h.m_Flags ∧ h'.m_Size = h.m_Size ∧
      (h.isVital = true → h'.m_Sequence = h.m_Sequence) := by
  obtain ⟨f, s, q⟩ := h
  simp only at hf0 hf hs0 hs
  have hN : (NET_MAX_SEQUENCE : Int) = 1024 := by decide
  by_cases hv : f % 2 = 1
  · have hvit : CNetChunkHeader.isVital ⟨f, s, q⟩ = true := by
      simp [CNetChunkHeader.isVital, hv]
    have hq' := hq hvit
    rw [hN] at hq'
    simp only at hq'
    rw [CNetChunkHeader.Pack_vital f s q hv, hvit]
    refine ⟨rfl, ?_, ?_⟩
    · intro b hb
      simp only [List.mem_cons, List.mem_singleton, List.mem_nil_iff, or_false] at hb
      omega
    · simp only [List.cons_append, List.nil_append]
      rw [CNetChunkHeader.Unpack_vital _ _ _ _ (by omega)]
      refine ⟨_, rfl, ?_, ?_, ?_⟩ <;> simp only <;> omega
  · have hvit : CNetChunkHeader.isVital ⟨f, s, q⟩ = false := by
      simp [CNetChunkHeader.isVital, hv]
    rw [CNetChunkHeader.Pack_plain f s q hv, hvit]
    refine ⟨rfl, ?_, ?_⟩
    · intro b hb
      simp only [List.mem_cons, List.mem_singleton, List.mem_nil_iff, or_false] at hb
      omega
    · simp only [List.cons_append, List.nil_append]
      rw [CNetChunkHeader.Unpack_plain _ _ _ (by omega)]
      refine ⟨_, rfl, ?_, ?_, ?_⟩
      · simp only; omega
      · simp only; omega
      · intro h; simp at h

/-- C3 witness: a vital header with the largest size and sequence. -/
theorem chunk_header_roundtrip_witness :
    ((CNetChunkHeader.mk 1 1024 1023).Pack.length
        = if (CNetChunkHeader.mk 1 1024 1023).isVital then 3 else 2) ∧
    (∀ b ∈ (CNetChunkHeader.mk 1 1024 1023).Pack, b < 256) ∧
    ∃ h', CNetChunkHeader.Unpack ((CNetChunkHeader.mk 1 1024 1023).Pack ++ [7, 7]) = some (h', [7, 7]) ∧
      h'.m_Flags = 1 ∧ h'.m_Size = 1024 ∧
      ((CNetChunkHeader.mk 1 1024 1023).isVital = true → h'.m_Sequence = 1023) :=
  chunk_header_roundtrip ⟨1, 1024, 1023⟩ [7, 7] (by decide) (by decide) (by decide) (by decide)
    (fun _ => by decide)

/-! ## Theorems: packet header -/

theorem packetHeaderSize_legacy : packetHeaderSize 0 false = 3 := by decide

theorem packetHeaderSize_legacy_connless : packetHeaderSize 0 true = 6 := by decide

theorem packetHeaderSize_current : packetHeaderSize 1 false = 11 := by decide

theorem packetHeaderSize_current_connless : packetHeaderSize 1 true = 15 := by decide

theorem take_dataSize (ds : Int) (data : List Nat) (h : ds = data.length) :
    data.take ds.toNat = data := by
  subst h
  simp

theorem PackPacket_length (p : CNetPacketConstruct)
    (hv : p.m_Version = 0 ∨ p.m_Version = 1) (hds : p.m_DataSize = p.m_aChunkData.length) :
    (PackPacket p).length = packetHeaderSize p.m_Version p.isConnless + p.m_aChunkData.length := by
  obtain ⟨v, t, r, f, a, n, ds, data⟩ := p
  simp only at hv hds
  have htake := take_dataSize ds data hds
  unfold PackPacket
  simp only [htake]
  rcases hv with h | h <;> subst h <;>
    cases hc : CNetPacketConstruct.isConnless ⟨_, t, r, f, a, n, ds, data⟩ <;>
    simp [flagsAckChunksBytes, tokenBytes, NET_PACKETVERSION_LEGACY,
      packetHeaderSize_legacy, packetHeaderSize_legacy_connless,
      packetHeaderSize_current, packetHeaderSize_current_connless] <;>
    omega

/-- The encoding of a valid current-version packet with a full payload is 1405 bytes long. -/
theorem fullPayloadPacket_length :
    ValidPacket fullPayloadPacket ∧ (PackPacket fullPayloadPacket).length = 1405 := by
  have hd : fullPayloadPacket.m_aChunkData.length = NET_MAX_PAYLOAD :=
    List.length_replicate _ _
  have hc : fullPayloadPacket.isConnless = false := by decide
  have hver : fullPayloadPacket.m_Version = 1 := rfl
  constructor
  · unfold ValidPacket
    refine ⟨Or.inr rfl, by decide, by decide, by decide, by decide, by decide, ?_, ?_, ?_⟩
    · rw [hd]; rfl
    · rw [hd]
    · intro b hb
      rw [List.eq_of_mem_replicate hb]
      decide
  · rw [PackPacket_length fullPayloadPacket (Or.inr rfl) (by rw [hd]; rfl), hc, hver, hd,
      packetHeaderSize_current]
    decide

/-- C8 (amended): on a tile whose switch is `TILE_ALLOW_TELE_GUN` or `TILE_ALLOW_BLUE_TELE_GUN`,
the corresponding flag stays set after the delay filter exactly when the delay is none of
1, 2, 3, or it is 1 and the type is `WEAPON_GUN`, or 2 and `WEAPON_GRENADE`, or 3 and
`WEAPON_LASER`; otherwise both flags are cleared. -/
theorem teleGunSwitchFlags_spec (K : GameConsts) (sw d T : Int)
    (hsw : sw = K.TILE_ALLOW_TELE_GUN ∨ sw = K.TILE_ALLOW_BLUE_TELE_GUN) :
    ((teleGunSwitchFlags K sw d T).1 = true ↔
      sw = K.TILE_ALLOW_TELE_GUN ∧
        ((d ≠ 1 ∧ d ≠ 2 ∧ d ≠ 3) ∨ (d = 1 ∧ T = K.WEAPON_GUN) ∨
         (d = 2 ∧ T = K.WEAPON_GRENADE) ∨ (d = 3 ∧ T = K.WEAPON_LASER))) ∧
    ((teleGunSwitchFlags K sw d T).2 = true ↔
      sw = K.TILE_ALLOW_BLUE_TELE_GUN ∧
        ((d ≠ 1 ∧ d ≠ 2 ∧ d ≠ 3) ∨ (d = 1 ∧ T = K.WEAPON_GUN) ∨
         (d = 2 ∧ T = K.WEAPON_GRENADE) ∨ (d = 3 ∧ T = K.WEAPON_LASER))) ∧
    (¬ ((d ≠ 1 ∧ d ≠ 2 ∧ d ≠ 3) ∨ (d = 1 ∧ T = K.WEAPON_GUN) ∨
         (d = 2 ∧ T = K.WEAPON_GRENADE) ∨ (d = 3 ∧ T = K.WEAPON_LASER)) →
      teleGunSwitchFlags K sw d T = (false, false)) := by
  have hor : (sw == K.TILE_ALLOW_TELE_GUN || sw == K.TILE_ALLOW_BLUE_TELE_GUN) = true := by
    rcases hsw with h | h <;> simp [h]
  unfold teleGunSwitchFlags
  simp only [hor, if_true]
  split_ifs with c3 c2 c1 <;>
    simp only [Bool.and_eq_true, beq_iff_eq, bne_iff_ne, ne_eq, not_and, not_not,
      Prod.mk.injEq, Bool.false_eq_true, false_iff, and_self, not_true_eq_false,
      imp_false, implies_true, and_true, true_and] at * <;>
    omega


/-- C8 witness: on a `TILE_ALLOW_TELE_GUN` switch with delay 3 a gun projectile clears both
flags, and with delay 1 it keeps the flag. -/
theorem teleGunSwitchFlags_spec_witness :
    ((96 : Int) = sampleConsts.TILE_ALLOW_TELE_GUN ∨ (96 : Int) = sampleConsts.TILE_ALLOW_BLUE_TELE_GUN) ∧
    teleGunSwitchFlags sampleConsts 96 3 1 = (false, false) ∧
    (teleGunSwitchFlags sampleConsts 96 1 1).1 = true :=
  ⟨Or.inl rfl,
   (teleGunSwitchFlags_spec sampleConsts 96 3 1 (Or.inl rfl)).2.2 (by decide),
   (teleGunSwitchFlags_spec sampleConsts 96 1 1 (Or.inl rfl)).1.2 ⟨rfl, by decide⟩⟩

/-- C8 counterexample: on a `TILE_ALLOW_TELE_GUN` switch with delay 4 a gun projectile keeps
the flag set, although the delay is not 0 and is none of the listed pairs. -/
theorem teleGunSwitchFlags_delay4_counterexample :
    teleGunSwitchFlags sampleConsts sampleConsts.TILE_ALLOW_TELE_GUN 4 sampleConsts.WEAPON_GUN
      = (true, false) ∧
    ¬ ((4 : Int) = 0 ∨ ((4 : Int) = 1 ∧ sampleConsts.WEAPON_GUN = sampleConsts.WEAPON_GUN) ∨
       ((4 : Int) = 2 ∧ sampleConsts.WEAPON_GUN = sampleConsts.WEAPON_GRENADE) ∨
       ((4 : Int) = 3 ∧ sampleConsts.WEAPON_GUN = sampleConsts.WEAPON_LASER)) := by
  decide

/-- What holds on every path of `CProjectile.Tick` to the call of line 202. -/
theorem Tick_nearestAirPosPlayer_reached (K : GameConsts) (x : TickInput Pos)
    (t : Option (CCharacter Pos))
    (hreach : CProjectile.Tick K x = TeleGunCall.nearestAirPosPlayer t) :
    t = x.pTargetChr K ∧ x.Collide = 0 ∧
    (x.targetHit K || x.Collide != 0 || x.GameLayerClipped x.CurPos) = true ∧
    x.GameLayerClipped (x.ColPos K) = false := by
  unfold CProjectile.Tick at hreach
  simp only at hreach
  split at hreach
  · cases hreach
  · split at hreach
    · rename_i hhit
      split at hreach
      · cases hreach
      · split at hreach
        · rename_i hbranch
          split at hreach
          · split at hreach
            · rename_i hc
              simp only [TeleGunCall.nearestAirPosPlayer.injEq] at hreach
              simp only [Bool.and_eq_true, Bool.not_eq_true'] at hhit hbranch
              exact ⟨hreach.symm, by simpa using hc, hhit.1, hbranch.1.2⟩
            · cases hreach
          · cases hreach
        · cases hreach
    · cases hreach

/-- C9: if `ColPos` equals `CurPos` whenever there is no collision (`Collide = 0`) and no target
character, then every execution of `CProjectile::Tick` that reaches the call
`GetNearestAirPosPlayer(pTargetChr->GetPos(), ...)` has `pTargetChr` non-null. -/
theorem tele_gun_target_nonnull (K : GameConsts) (x : TickInput Pos)
    (hcol : x.Collide = 0 → x.pTargetChr K = none → x.ColPos K = x.CurPos)
    (t : Option (CCharacter Pos))
    (hreach : CProjectile.Tick K x = TeleGunCall.nearestAirPosPlayer t) :
    t ≠ none := by
  obtain ⟨ht, hc0, hhit, hclip⟩ := Tick_nearestAirPosPlayer_reached K x t hreach
  intro hnone
  rw [hnone] at ht
  have hth : x.targetHit K = false := by simp [TickInput.targetHit, ← ht]
  rw [hcol hc0 ht.symm] at hclip
  simp [hth, hc0, hclip] at hhit

/-- C9 witness: a gun shot of a tele-gun owner that hits a character in free air reaches the
call with that character. -/
theorem tele_gun_target_nonnull_witness :
    CProjectile.Tick sampleConsts sampleTick = TeleGunCall.nearestAirPosPlayer (some sampleTarget) ∧
    (some sampleTarget : Option (CCharacter (Int × Int))) ≠ none :=
  ⟨rfl, tele_gun_target_nonnull sampleConsts sampleTick
    (fun _ h => absurd h (Option.some_ne_none sampleTarget)) (some sampleTarget) rfl⟩

/-- Without the assumption on `ColPos` the call is reachable with a null target: the model
does not force the pointer to be set. -/
theorem tele_gun_null_target_without_colpos_assumption :
    CProjectile.Tick sampleConsts sampleTickMoved = TeleGunCall.nearestAirPosPlayer none := by
  rfl

end Ddnet7
